import Mathlib

/-!
Shallow embedding of `src/property/types/CloudSchedule.h` (ArduinoIoTCloud):
the bit-packed schedule descriptor, its decoding helpers, the activity
evaluation algorithm `Schedule::isActive`, and the local/cloud dual-value
tracker `CloudSchedule`.

`unsigned int` values are embedded as `Nat`; every arithmetic operation of the
source either cannot overflow on 32-bit inputs (the `max - min` subtraction,
the modulo, the comparisons) or is reduced modulo `2^32` explicitly (the delta
multiplications). The C/C++ `%` operator has undefined behaviour on a zero
divisor, so it is embedded as an `Option`-valued operation and `isActive`
returns `Option Bool` (`none` marks the undefined-behaviour path).
-/

/-- `2^32`: modulus of `unsigned int` arithmetic. -/
def UINT32_MOD : Nat := 4294967296

/-- Macro `SCHEDULE_UNIT_MASK` (0xC0000000). -/
def SCHEDULE_UNIT_MASK : Nat := 0xC0000000

/-- Macro `SCHEDULE_UNIT_SHIFT`. -/
def SCHEDULE_UNIT_SHIFT : Nat := 30

/-- Macro `SCHEDULE_TYPE_MASK` (0x3C000000). -/
def SCHEDULE_TYPE_MASK : Nat := 0x3C000000

/-- Macro `SCHEDULE_TYPE_SHIFT`. -/
def SCHEDULE_TYPE_SHIFT : Nat := 26

/-- Macro `SCHEDULE_MONTH_MASK` (0x0000FF00). -/
def SCHEDULE_MONTH_MASK : Nat := 0x0000FF00

/-- Macro `SCHEDULE_MONTH_SHIFT`. -/
def SCHEDULE_MONTH_SHIFT : Nat := 8

/-- Macro `SCHEDULE_REP_MASK` (0x03FFFFFF). -/
def SCHEDULE_REP_MASK : Nat := 0x03FFFFFF

/-- Macro `SCHEDULE_WEEK_MASK` (0x000000FF). -/
def SCHEDULE_WEEK_MASK : Nat := 0x000000FF

/-- Macro `SCHEDULE_DAY_MASK` (0x000000FF). -/
def SCHEDULE_DAY_MASK : Nat := 0x000000FF

/-- Macro `SCHEDULE_ONE_SHOT` (0xFFFFFFFF). -/
def SCHEDULE_ONE_SHOT : Nat := 0xFFFFFFFF

/-- Modelled from the spec: constant `SECONDS` comes from `AIoTC_Const.h`,
which is not under src/; the spec maps Seconds to 1 second. -/
def SECONDS : Nat := 1

/-- Modelled from the spec: constant `MINUTES` from `AIoTC_Const.h`
(not under src/); the spec maps Minutes to 60 seconds. -/
def MINUTES : Nat := 60

/-- Modelled from the spec: constant `HOURS` from `AIoTC_Const.h`
(not under src/); the spec maps Hours to 3600 seconds. -/
def HOURS : Nat := 3600

/-- Modelled from the spec: constant `DAYS` from `AIoTC_Const.h`
(not under src/); the spec maps Days to 86400 seconds. -/
def DAYS : Nat := 86400

/-- `Schedule::getScheduleUnit`: bits 31-30 of the mask. The C++ enum
`ScheduleUnit` is `int`-backed (Seconds = 0, Minutes = 1, Hours = 2,
Days = 3); its numeric value is embedded directly. -/
def getScheduleUnit (msk : Nat) : Nat :=
  (msk &&& SCHEDULE_UNIT_MASK) >>> SCHEDULE_UNIT_SHIFT

/-- `Schedule::getScheduleType`: bits 29-26 of the mask. The C++ enum
`ScheduleType` is `int`-backed (OneShot = 0, FixedDelta = 1, Weekly = 2,
Monthly = 3, Yearly = 4); every 4-bit pattern 0..15 is a representable
value of the underlying type, embedded directly as its numeric value. -/
def getScheduleType (msk : Nat) : Nat :=
  (msk &&& SCHEDULE_TYPE_MASK) >>> SCHEDULE_TYPE_SHIFT

/-- `Schedule::getScheduleRepetition`: low 26 bits of the mask. -/
def getScheduleRepetition (msk : Nat) : Nat := msk &&& SCHEDULE_REP_MASK

/-- `Schedule::getScheduleWeekMask`: low 8 bits of the mask. -/
def getScheduleWeekMask (msk : Nat) : Nat := msk &&& SCHEDULE_WEEK_MASK

/-- `Schedule::getScheduleDay`: low 8 bits of the mask. -/
def getScheduleDay (msk : Nat) : Nat := msk &&& SCHEDULE_DAY_MASK

/-- `Schedule::getScheduleMonth`: bits 15-8 of the mask. -/
def getScheduleMonth (msk : Nat) : Nat :=
  (msk &&& SCHEDULE_MONTH_MASK) >>> SCHEDULE_MONTH_SHIFT

/-- `Schedule::isScheduleOneShot`: type field equals `ScheduleType::OneShot`. -/
def isScheduleOneShot (msk : Nat) : Bool := getScheduleType msk == 0

/-- `Schedule::isScheduleFixed`: type field equals `ScheduleType::FixedDelta`. -/
def isScheduleFixed (msk : Nat) : Bool := getScheduleType msk == 1

/-- `Schedule::isScheduleWeekly`: type field equals `ScheduleType::Weekly`. -/
def isScheduleWeekly (msk : Nat) : Bool := getScheduleType msk == 2

/-- `Schedule::isScheduleMonthly`: type field equals `ScheduleType::Monthly`. -/
def isScheduleMonthly (msk : Nat) : Bool := getScheduleType msk == 3

/-- `Schedule::isScheduleYearly`: type field equals `ScheduleType::Yearly`. -/
def isScheduleYearly (msk : Nat) : Bool := getScheduleType msk == 4

/-- `Schedule::isScheduleInSeconds`. -/
def isScheduleInSeconds (msk : Nat) : Bool :=
  if isScheduleFixed msk then getScheduleUnit msk == 0 else false

/-- `Schedule::isScheduleInMinutes`. -/
def isScheduleInMinutes (msk : Nat) : Bool :=
  if isScheduleFixed msk then getScheduleUnit msk == 1 else false

/-- `Schedule::isScheduleInHours`. -/
def isScheduleInHours (msk : Nat) : Bool :=
  if isScheduleFixed msk then getScheduleUnit msk == 2 else false

/-- `Schedule::isScheduleInDays`. -/
def isScheduleInDays (msk : Nat) : Bool :=
  if isScheduleFixed msk then getScheduleUnit msk == 3 else false

/-- Days elapsed since the Unix epoch of an epoch-seconds value. -/
def daysFromEpoch (t : Nat) : Nat := t / 86400

/-- Modelled from the spec: `gmtime(t)->tm_wday` (the C library, external to
this repository). Weekday index with 0 = Sunday; 1970-01-01 (epoch day 0) is
a Thursday, index 4. -/
def tmWday (t : Nat) : Nat := (daysFromEpoch t + 4) % 7

/-- Modelled from the spec: `gmtime(t)->tm_mday` (the C library, external to
this repository): day of month, 1-31, proleptic Gregorian calendar in UTC. -/
def tmMday (t : Nat) : Nat :=
  let z := daysFromEpoch t + 719468
  let doe := z % 146097
  let yoe := (doe - doe / 1460 + doe / 36524 - doe / 146097) / 365
  let doy := doe - (365 * yoe + yoe / 4 - yoe / 100)
  let mp := (5 * doy + 2) / 153
  doy - (153 * mp + 2) / 5 + 1

/-- Modelled from the spec: `gmtime(t)->tm_mon` (the C library, external to
this repository): month index 0-11, proleptic Gregorian calendar in UTC. -/
def tmMon (t : Nat) : Nat :=
  let z := daysFromEpoch t + 719468
  let doe := z % 146097
  let yoe := (doe - doe / 1460 + doe / 36524 - doe / 146097) / 365
  let doy := doe - (365 * yoe + yoe / 4 - yoe / 100)
  let mp := (5 * doy + 2) / 153
  (if mp < 10 then mp + 3 else mp - 9) - 1

/-- `Schedule::getCurrentDayMask`: `1 << gmtime(time)->tm_wday`. -/
def getCurrentDayMask (t : Nat) : Nat := 1 <<< tmWday t

/-- `Schedule::getCurrentDay`: `gmtime(time)->tm_mday`. -/
def getCurrentDay (t : Nat) : Nat := tmMday t

/-- `Schedule::getCurrentMonth`: `gmtime(time)->tm_mon`. -/
def getCurrentMonth (t : Nat) : Nat := tmMon t

/-- `Schedule::checkSchedulePeriod`: `now >= frm && (now < to || to == 0)`. -/
def checkSchedulePeriod (now frm to_ : Nat) : Bool :=
  if frm ≤ now ∧ (now < to_ ∨ to_ = 0) then true else false

/-- `Schedule::checkScheduleMask`: the sequence of early-returning `if`s of
the source, flattened to nested conditionals (each source branch returns). -/
def checkScheduleMask (now msk : Nat) : Bool :=
  if isScheduleFixed msk || isScheduleOneShot msk then true
  else if isScheduleWeekly msk
          && ((getCurrentDayMask now &&& getScheduleWeekMask msk) != 0) then true
  else if isScheduleMonthly msk
          && (getCurrentDay now == getScheduleDay msk) then true
  else if isScheduleYearly msk
          && (getCurrentDay now == getScheduleDay msk)
          && (getCurrentMonth now == getScheduleMonth msk) then true
  else false

/-- `Schedule::getScheduleDelta`. The multiplications are `unsigned int`
arithmetic, hence reduced modulo `2^32`. -/
def getScheduleDelta (msk : Nat) : Nat :=
  if isScheduleInSeconds msk then (SECONDS * getScheduleRepetition msk) % UINT32_MOD
  else if isScheduleInMinutes msk then (MINUTES * getScheduleRepetition msk) % UINT32_MOD
  else if isScheduleInHours msk then (HOURS * getScheduleRepetition msk) % UINT32_MOD
  else if isScheduleInDays msk then (DAYS * getScheduleRepetition msk) % UINT32_MOD
  else if isScheduleWeekly msk || isScheduleMonthly msk || isScheduleYearly msk then DAYS
  else SCHEDULE_ONE_SHOT

/-- C/C++ `%` on unsigned integers: undefined behaviour when the divisor is
zero, embedded as `none`. -/
def uintMod (x y : Nat) : Option Nat := if y = 0 then none else some (x % y)

/-- The `Schedule` value type: four `unsigned int` fields `frm`, `to`, `len`,
`msk`. -/
structure Schedule where
  frm : Nat
  to_ : Nat
  len : Nat
  msk : Nat

/-- `Schedule::isActive`. The source reads `now` from `getLocalTime()`
(the external `TimeService`); the spec treats the current time as an argument
in spirit, so it is an explicit parameter here. Returns `none` exactly on the
undefined-behaviour path (modulo by a zero delta). -/
def Schedule.isActive (s : Schedule) (now : Nat) : Option Bool :=
  if checkSchedulePeriod now s.frm s.to_ then
    if checkScheduleMask now s.msk then
      match uintMod (max now s.frm - min now s.frm) (getScheduleDelta s.msk) with
      | some r => some (if r ≤ s.len then true else false)
      | none => none
    else some false
  else some false

/-- `Schedule::operator==`: field-wise equality, as a Bool. -/
def Schedule.beq (a b : Schedule) : Bool :=
  a.frm == b.frm && a.to_ == b.to_ && a.len == b.len && a.msk == b.msk

/-- `Schedule::operator!=`: negation of `operator==`. -/
def Schedule.bne (a b : Schedule) : Bool := !(Schedule.beq a b)

/-- The `CloudSchedule` property: local value, cloud value, and the
last-local-modification timestamp held by the `Property` base class
(modelled from the spec: the base class is not under src/; the spec calls it
a "dirty since" timestamp facility updated whenever `local` is reassigned). -/
structure CloudSchedule where
  value : Schedule
  cloud_value : Schedule
  timestamp : Nat

/-- The `CloudSchedule(frm, to, len, msk)` constructor: both sides are
initialized to the same descriptor. -/
def CloudSchedule.init (frm to_ len msk : Nat) : CloudSchedule :=
  { value := ⟨frm, to_, len, msk⟩
    cloud_value := ⟨frm, to_, len, msk⟩
    timestamp := 0 }

/-- `CloudSchedule::isDifferentFromCloud`: `_value != _cloud_value`. -/
def CloudSchedule.isDifferentFromCloud (cs : CloudSchedule) : Bool :=
  Schedule.bne cs.value cs.cloud_value

/-- `CloudSchedule::operator=(Schedule)`: field-wise overwrite of the local
value followed by `updateLocalTimestamp()`. Modelled from the spec:
`updateLocalTimestamp` belongs to the `Property` base class (not under src/)
and records the time of the local change, so the current time is a
parameter. -/
def CloudSchedule.setLocal (cs : CloudSchedule) (s : Schedule) (now : Nat) :
    CloudSchedule :=
  { value := { frm := s.frm, to_ := s.to_, len := s.len, msk := s.msk }
    cloud_value := cs.cloud_value
    timestamp := now }

/-- `CloudSchedule::fromCloudToLocal`: `_value = _cloud_value`. -/
def CloudSchedule.fromCloudToLocal (cs : CloudSchedule) : CloudSchedule :=
  { cs with value := cs.cloud_value }

/-- `CloudSchedule::fromLocalToCloud`: `_cloud_value = _value`. -/
def CloudSchedule.fromLocalToCloud (cs : CloudSchedule) : CloudSchedule :=
  { cs with cloud_value := cs.value }

/-- `CloudSchedule::appendAttributesToCloud`: four `appendAttribute` calls on
the local fields, in the order frm, to, len, msk. Modelled from the spec:
`appendAttribute` (the `Property` base class, not under src/) appends one
scalar to the outbound attribute sequence, embedded as a list of scalars. -/
def CloudSchedule.appendAttributesToCloud (cs : CloudSchedule) : List Nat :=
  [cs.value.frm, cs.value.to_, cs.value.len, cs.value.msk]

/-- `CloudSchedule::setAttributesFromCloud`: four `setAttribute` calls on the
cloud fields, in the order frm, to, len, msk. Modelled from the spec:
`setAttribute` (the `Property` base class, not under src/) reads the next
scalar of the inbound attribute sequence; reading fails if fewer than four
scalars arrive. -/
def CloudSchedule.setAttributesFromCloud (cs : CloudSchedule)
    (attrs : List Nat) : Option CloudSchedule :=
  match attrs with
  | frm :: to_ :: len :: msk :: _ =>
      some { cs with cloud_value := ⟨frm, to_, len, msk⟩ }
  | _ => none

/-! ## Helper lemmas -/

lemma checkSchedulePeriod_iff (now frm t : Nat) :
    checkSchedulePeriod now frm t = true ↔ frm ≤ now ∧ (now < t ∨ t = 0) := by
  unfold checkSchedulePeriod
  split <;> simp_all

lemma isActive_window_false {s : Schedule} {now : Nat}
    (h : checkSchedulePeriod now s.frm s.to_ = false) :
    s.isActive now = some false := by
  simp [Schedule.isActive, h]

/-! ## Claims -/

/-- C1: the claim says a FixedDelta schedule with repetition count 0 is never
active inside its window and that no division by zero occurs; the code instead
computes `(now - frm) % 0`, a division by zero (C/C++ undefined behaviour,
embedded as `none`), at e.g. frm = 0, to = 0, len = 5,
msk = 0x04000000 (type = FixedDelta, unit = Seconds, repetition = 0),
now = 0. -/
theorem C1_zero_delta_undefined :
    Schedule.isActive ⟨0, 0, 5, 0x04000000⟩ 0 = none := rfl

/-- C2: `isActive` returns false whenever the window check
`now >= from && (now < to || to == 0)` fails; in particular `isActive to` is
false when `to ≠ 0` (exclusive upper bound), and when `to = 0` the window
check passes exactly for every `now ≥ from`. -/
theorem C2_window_check (s : Schedule) (now : Nat) :
    (¬ (s.frm ≤ now ∧ (now < s.to_ ∨ s.to_ = 0)) → s.isActive now = some false)
    ∧ (s.to_ ≠ 0 → s.isActive s.to_ = some false)
    ∧ (s.to_ = 0 → (checkSchedulePeriod now s.frm s.to_ = true ↔ s.frm ≤ now)) := by
  refine ⟨?_, ?_, ?_⟩
  · intro h
    have hper : checkSchedulePeriod now s.frm s.to_ = false := by
      simp [checkSchedulePeriod, h]
    exact isActive_window_false hper
  · intro h
    have hper : checkSchedulePeriod s.to_ s.frm s.to_ = false := by
      simp only [checkSchedulePeriod, ite_eq_right_iff]
      intro hc
      omega
    exact isActive_window_false hper
  · intro h
    rw [h]
    simp [checkSchedulePeriod_iff]

/-- Witness for C2 at concrete inputs. -/
theorem C2_window_check_witness :
    Schedule.isActive ⟨5, 10, 3, 0x04000001⟩ 20 = some false
    ∧ Schedule.isActive ⟨5, 10, 3, 0x04000001⟩ 10 = some false
    ∧ (checkSchedulePeriod 7 5 0 = true ↔ (5 : Nat) ≤ 7) :=
  ⟨(C2_window_check ⟨5, 10, 3, 0x04000001⟩ 20).1 (by decide),
   (C2_window_check ⟨5, 10, 3, 0x04000001⟩ 10).2.1 (by decide),
   (C2_window_check ⟨5, 0, 3, 0x04000001⟩ 7).2.2 rfl⟩

/-- C3 counterexample: the claim says an in-window OneShot schedule is active
iff `now - from ≤ length`; at frm = 0, to = 0, len = 0, msk = 0 (OneShot) and
now = 4294967295 (a valid `unsigned int`), the elapsed time equals the
sentinel delta 0xFFFFFFFF, the modulo wraps to 0 and the schedule is active
although `now - from = 4294967295 > 0 = length`. -/
theorem C3_oneShot_counterexample :
    Schedule.isActive ⟨0, 0, 0, 0⟩ 4294967295 = some true
    ∧ ¬ ((4294967295 : Nat) - 0 ≤ 0) := ⟨rfl, by decide⟩

/-- C3 amended: for a OneShot schedule the delta is the sentinel 0xFFFFFFFF,
and for every `now` inside the window with `now - from` strictly below the
sentinel (all cases except elapsed time exactly 0xFFFFFFFF, where the modulo
wraps to 0 and the schedule is active regardless of length), `isActive` is
true iff `now - from ≤ length`. -/
theorem C3_oneShot_amended (s : Schedule) (now : Nat)
    (h1 : getScheduleType s.msk = 0)
    (h2 : checkSchedulePeriod now s.frm s.to_ = true)
    (h3 : now - s.frm < 4294967295) :
    getScheduleDelta s.msk = 4294967295
    ∧ (s.isActive now = some true ↔ now - s.frm ≤ s.len) := by
  have hfix : isScheduleFixed s.msk = false := by simp [isScheduleFixed, h1]
  have hos : isScheduleOneShot s.msk = true := by simp [isScheduleOneShot, h1]
  have hwk : isScheduleWeekly s.msk = false := by simp [isScheduleWeekly, h1]
  have hmo : isScheduleMonthly s.msk = false := by simp [isScheduleMonthly, h1]
  have hyr : isScheduleYearly s.msk = false := by simp [isScheduleYearly, h1]
  have hdelta : getScheduleDelta s.msk = 4294967295 := by
    simp [getScheduleDelta, isScheduleInSeconds, isScheduleInMinutes,
      isScheduleInHours, isScheduleInDays, hfix, hwk, hmo, hyr, SCHEDULE_ONE_SHOT]
  have hmask : checkScheduleMask now s.msk = true := by
    simp [checkScheduleMask, hfix, hos]
  have hle : s.frm ≤ now := ((checkSchedulePeriod_iff now s.frm s.to_).mp h2).1
  have hmm : max now s.frm - min now s.frm = now - s.frm := by omega
  refine ⟨hdelta, ?_⟩
  simp only [Schedule.isActive, h2, hmask, if_true, hdelta, uintMod, hmm,
    Nat.mod_eq_of_lt h3]
  split <;> simp_all

/-- Witness for C3 amended at concrete inputs. -/
theorem C3_oneShot_amended_witness :
    getScheduleDelta 0 = 4294967295
    ∧ (Schedule.isActive ⟨0, 0, 5, 0⟩ 3 = some true ↔ (3 : Nat) - 0 ≤ 5) :=
  C3_oneShot_amended ⟨0, 0, 5, 0⟩ 3 rfl (by decide) (by decide)

/-- C4: the FixedDelta schedule with unit = Seconds, repetition = 10,
from = 0, length = 2 and no window end has delta 10 and is active exactly when
`now % 10 ≤ 2`; in particular it is active at 0,1,2,10,11,12,20,21,22 and
inactive at 3..9 and 13..19. -/
theorem C4_fixedDelta_concrete :
    getScheduleDelta 0x0400000A = 10
    ∧ (∀ now : Nat, Schedule.isActive ⟨0, 0, 2, 0x0400000A⟩ now
        = some (if now % 10 ≤ 2 then true else false))
    ∧ (([0, 1, 2, 10, 11, 12, 20, 21, 22] : List Nat).all
        (fun n => Schedule.isActive ⟨0, 0, 2, 0x0400000A⟩ n == some true) = true)
    ∧ (([3, 4, 5, 6, 7, 8, 9, 13, 14, 15, 16, 17, 18, 19] : List Nat).all
        (fun n => Schedule.isActive ⟨0, 0, 2, 0x0400000A⟩ n == some false) = true) := by
  refine ⟨rfl, ?_, rfl, rfl⟩
  intro now
  have hper : checkSchedulePeriod now 0 0 = true := by
    simp [checkSchedulePeriod]
  have hmask : checkScheduleMask now 0x0400000A = true := rfl
  have hdelta : getScheduleDelta 0x0400000A = 10 := rfl
  have hmm : max now 0 - min now 0 = now := by omega
  simp only [Schedule.isActive, hper, hmask, if_true, hdelta, uintMod, hmm]
  simp

/-- C5: a malformed window with `to ≠ 0` and `from > to` makes the window
check fail for every `now`, so the schedule is never active (and in the
embedding no undefined behaviour is reached). -/
theorem C5_inverted_window_inactive (s : Schedule) (now : Nat)
    (h1 : s.to_ ≠ 0) (h2 : s.to_ < s.frm) :
    s.isActive now = some false := by
  have hper : checkSchedulePeriod now s.frm s.to_ = false := by
    simp only [checkSchedulePeriod, ite_eq_right_iff]
    intro hc
    omega
  exact isActive_window_false hper

/-- Witness for C5 at concrete inputs. -/
theorem C5_inverted_window_inactive_witness :
    Schedule.isActive ⟨10, 5, 3, 0⟩ 12 = some false :=
  C5_inverted_window_inactive ⟨10, 5, 3, 0⟩ 12 (by decide) (by decide)

/-- C6: for a Weekly schedule, if the bit of the current weekday
(`1 << tm_wday`, 0 = Sunday) is not set in the low 8 bits of the mask then
`isActive` is false; if it is set and `now` is inside the window, activity is
exactly the daily occurrence test `(now - from) % 86400 ≤ length`. -/
theorem C6_weekly (s : Schedule) (now : Nat) (h : getScheduleType s.msk = 2) :
    ((getCurrentDayMask now &&& getScheduleWeekMask s.msk) = 0 →
        s.isActive now = some false)
    ∧ ((getCurrentDayMask now &&& getScheduleWeekMask s.msk) ≠ 0 →
        checkSchedulePeriod now s.frm s.to_ = true →
        s.isActive now = some (if (now - s.frm) % 86400 ≤ s.len then true else false)) := by
  have hfix : isScheduleFixed s.msk = false := by simp [isScheduleFixed, h]
  have hos : isScheduleOneShot s.msk = false := by simp [isScheduleOneShot, h]
  have hwk : isScheduleWeekly s.msk = true := by simp [isScheduleWeekly, h]
  have hmo : isScheduleMonthly s.msk = false := by simp [isScheduleMonthly, h]
  have hyr : isScheduleYearly s.msk = false := by simp [isScheduleYearly, h]
  constructor
  · intro hbit
    have hmask : checkScheduleMask now s.msk = false := by
      simp [checkScheduleMask, hfix, hos, hwk, hmo, hyr, hbit]
    cases hper : checkSchedulePeriod now s.frm s.to_ <;>
      simp [Schedule.isActive, hper, hmask]
  · intro hbit hper
    have hmask : checkScheduleMask now s.msk = true := by
      simp [checkScheduleMask, hfix, hos, hwk, hmo, hyr, bne_iff_ne, hbit]
    have hdelta : getScheduleDelta s.msk = 86400 := by
      simp [getScheduleDelta, isScheduleInSeconds, isScheduleInMinutes,
        isScheduleInHours, isScheduleInDays, hfix, hwk, DAYS]
    have hle : s.frm ≤ now := ((checkSchedulePeriod_iff now s.frm s.to_).mp hper).1
    have hmm : max now s.frm - min now s.frm = now - s.frm := by omega
    simp only [Schedule.isActive, hper, hmask, if_true, hdelta, uintMod, hmm]
    simp

/-- Witness for C6 at concrete inputs: now = 0 is a Thursday (weekday 4);
msk = 0x08000002 is Weekly selecting only Monday (inactive),
msk = 0x08000010 is Weekly selecting only Thursday (daily-delta test). -/
theorem C6_weekly_witness :
    Schedule.isActive ⟨0, 0, 5, 0x08000002⟩ 0 = some false
    ∧ Schedule.isActive ⟨0, 0, 5, 0x08000010⟩ 0
        = some (if ((0 : Nat) - 0) % 86400 ≤ 5 then true else false) :=
  ⟨(C6_weekly ⟨0, 0, 5, 0x08000002⟩ 0 (by decide)).1 (by decide),
   (C6_weekly ⟨0, 0, 5, 0x08000010⟩ 0 (by decide)).2 (by decide) (by decide)⟩

/-- C7 counterexample: the claim says that on a tracker initialized with both
sides equal to a descriptor d, `setLocal d` (the same d) makes `isDivergent`
true; but the assignment copies d over an equal local value, so local and
cloud still agree field-wise and `isDivergent` is false. -/
theorem C7_divergence_counterexample :
    CloudSchedule.isDifferentFromCloud
      (CloudSchedule.setLocal (CloudSchedule.init 1 2 3 4) ⟨1, 2, 3, 4⟩ 7)
      = false := rfl

/-- C7 amended: on a tracker initialized with both sides equal to descriptor
⟨frm, to, len, msk⟩, `isDivergent` is false before `setLocal`; after
`setLocal s` with s differing from that descriptor in at least one field it is
true; and for every tracker state it is false immediately after `push`
(`fromLocalToCloud`). -/
theorem C7_divergence_amended (frm to_ len msk : Nat) (s : Schedule)
    (now : Nat) (cs : CloudSchedule)
    (h : Schedule.beq s ⟨frm, to_, len, msk⟩ = false) :
    CloudSchedule.isDifferentFromCloud (CloudSchedule.init frm to_ len msk) = false
    ∧ CloudSchedule.isDifferentFromCloud
        (CloudSchedule.setLocal (CloudSchedule.init frm to_ len msk) s now) = true
    ∧ CloudSchedule.isDifferentFromCloud (CloudSchedule.fromLocalToCloud cs) = false := by
  refine ⟨?_, ?_, ?_⟩
  · simp [CloudSchedule.isDifferentFromCloud, CloudSchedule.init,
      Schedule.bne, Schedule.beq]
  · show Schedule.bne s ⟨frm, to_, len, msk⟩ = true
    simp [Schedule.bne, h]
  · simp [CloudSchedule.isDifferentFromCloud, CloudSchedule.fromLocalToCloud,
      Schedule.bne, Schedule.beq]

/-- Witness for C7 amended at concrete inputs. -/
theorem C7_divergence_amended_witness :
    CloudSchedule.isDifferentFromCloud (CloudSchedule.init 1 2 3 4) = false
    ∧ CloudSchedule.isDifferentFromCloud
        (CloudSchedule.setLocal (CloudSchedule.init 1 2 3 4) ⟨9, 2, 3, 4⟩ 7) = true
    ∧ CloudSchedule.isDifferentFromCloud
        (CloudSchedule.fromLocalToCloud (CloudSchedule.init 1 2 3 4)) = false :=
  C7_divergence_amended 1 2 3 4 ⟨9, 2, 3, 4⟩ 7 (CloudSchedule.init 1 2 3 4) (by decide)

/-- C8: serializing the local descriptor appends its four fields in the fixed
order frm, to, len, msk, and deserializing that sequence into any tracker's
cloud side reproduces the original descriptor bit-for-bit. -/
theorem C8_serialize_roundtrip (cs fresh : CloudSchedule) :
    CloudSchedule.setAttributesFromCloud fresh
        (CloudSchedule.appendAttributesToCloud cs)
      = some { fresh with cloud_value := cs.value } := rfl

/-- C9: `setLocal` overwrites all four fields of the local descriptor with the
argument's fields, records the modification time, and leaves the cloud
descriptor's four fields unchanged. -/
theorem C9_setLocal_frame (cs : CloudSchedule) (s : Schedule) (now : Nat) :
    (CloudSchedule.setLocal cs s now).value.frm = s.frm
    ∧ (CloudSchedule.setLocal cs s now).value.to_ = s.to_
    ∧ (CloudSchedule.setLocal cs s now).value.len = s.len
    ∧ (CloudSchedule.setLocal cs s now).value.msk = s.msk
    ∧ (CloudSchedule.setLocal cs s now).timestamp = now
    ∧ (CloudSchedule.setLocal cs s now).cloud_value.frm = cs.cloud_value.frm
    ∧ (CloudSchedule.setLocal cs s now).cloud_value.to_ = cs.cloud_value.to_
    ∧ (CloudSchedule.setLocal cs s now).cloud_value.len = cs.cloud_value.len
    ∧ (CloudSchedule.setLocal cs s now).cloud_value.msk = cs.cloud_value.msk :=
  ⟨rfl, rfl, rfl, rfl, rfl, rfl, rfl, rfl, rfl⟩

/-- C10: a mask whose 4-bit type field holds 5 or more matches none of the
five recurrence-type predicates, so `checkScheduleMask` is false and the
schedule is never active, regardless of window and length. -/
theorem C10_unknown_type_inactive (s : Schedule) (now : Nat)
    (h : 5 ≤ getScheduleType s.msk) :
    s.isActive now = some false := by
  have h0 : getScheduleType s.msk ≠ 0 := by omega
  have h1 : getScheduleType s.msk ≠ 1 := by omega
  have h2 : getScheduleType s.msk ≠ 2 := by omega
  have h3 : getScheduleType s.msk ≠ 3 := by omega
  have h4 : getScheduleType s.msk ≠ 4 := by omega
  have hmask : checkScheduleMask now s.msk = false := by
    simp [checkScheduleMask, isScheduleFixed, isScheduleOneShot,
      isScheduleWeekly, isScheduleMonthly, isScheduleYearly, h0, h1, h2, h3, h4]
  cases hper : checkSchedulePeriod now s.frm s.to_ <;>
    simp [Schedule.isActive, hper, hmask]

/-- Witness for C10 at concrete inputs: msk = 0x14000000 has type field 5. -/
theorem C10_unknown_type_inactive_witness :
    Schedule.isActive ⟨0, 0, 100, 0x14000000⟩ 0 = some false :=
  C10_unknown_type_inactive ⟨0, 0, 100, 0x14000000⟩ 0 (by decide)
